import Mathlib

/-
Verification of the transport/multiplexing layer of node-shellies-ng
(src/dist/rpc/outbound-websocket.js): the OutboundWebSocketServer and the
OutboundWebSocketRpcHandler. The JavaScript source is embedded shallowly:
each method becomes a pure Lean function on explicit state, socket event
emission becomes a returned list of events, and promises become explicit
outcome values.
-/

namespace Shellies

/-- WebSocket readiness states, mirroring the ws module constants
CONNECTING = 0, OPEN = 1, CLOSING = 2, CLOSED = 3. -/
inductive ReadyState
  | CONNECTING
  | OPEN
  | CLOSING
  | CLOSED
deriving DecidableEq, Repr

/-- The four event listeners an OutboundWebSocketRpcHandler binds to its
socket in setupSocket: openHandler, closeHandler, messageHandler,
errorHandler. -/
inductive Listener
  | openL
  | closeL
  | messageL
  | errorL
deriving DecidableEq, Repr

/-- A websocket object as seen by the handler: an identity (JS reference
identity is modelled by the whole record, with sid distinguishing otherwise
equal sockets), its readiness state, and the handler listeners currently
bound to it. -/
structure SocketObj where
  sid : Nat
  readyState : ReadyState
  listeners : List Listener
deriving DecidableEq, Repr

/-- Events emitted by an OutboundWebSocketRpcHandler (EventEmitter). -/
inductive HEvent
  | connect
  | disconnect (code : Nat) (reason : String)
deriving DecidableEq, Repr

/-- The connected getter: true iff a socket is attached and its readyState
is WebSocket.OPEN (source lines 214-216). -/
def connectedState (s : Option SocketObj) : Bool :=
  match s with
  | some sock => sock.readyState = ReadyState.OPEN
  | none => false

/-- The four listeners a handler binds in setupSocket, in binding order. -/
def handlerListeners : List Listener :=
  [Listener.openL, Listener.closeL, Listener.messageL, Listener.errorL]

/-- Embeds OutboundWebSocketRpcHandler.setupSocket (source lines 232-242):
if a socket is attached, bind the four handler listeners to it with .on;
with no socket it does nothing. -/
def setupSocket (s : Option SocketObj) : Option SocketObj :=
  match s with
  | none => none
  | some sock =>
      some { sock with listeners := sock.listeners ++ handlerListeners }

/-- Result of the socket setter: the handler socket afterwards (with the
listeners setupSocket bound), the replaced socket object afterwards, and the
events emitted during the swap. -/
structure SetSocketResult where
  newSocket : Option SocketObj
  oldSocket : Option SocketObj
  events : List HEvent
deriving DecidableEq, Repr

/-- Embeds the set socket accessor (source lines 196-213). JS reference
equality on sockets is modelled by equality of the records. The setter:
aborts when the same socket is re-attached; otherwise stores the new socket,
runs setupSocket on it, and, when the old and new sockets differ in
readiness (or either is null), emits connect when the new socket is OPEN,
else disconnect(1000, Socket replaced) when the old one was OPEN. The old
socket object itself is not touched: no .off and no close is called on it. -/
def setSocket (oldS newS : Option SocketObj) : SetSocketResult :=
  if newS = oldS then
    { newSocket := oldS, oldSocket := oldS, events := [] }
  else
    let bound := setupSocket newS
    let events :=
      if newS.isNone ∨ oldS.isNone ∨
          newS.map SocketObj.readyState ≠ oldS.map SocketObj.readyState then
        if connectedState newS then [HEvent.connect]
        else if connectedState oldS then [HEvent.disconnect 1000 "Socket replaced"]
        else []
      else []
    { newSocket := bound, oldSocket := oldS, events := events }

/-- The four .off calls of handleClose remove every occurrence of each
handler listener from the listener list of a socket. -/
def removeHandlerListeners (ls : List Listener) : List Listener :=
  ((((ls.filter (· ≠ Listener.openL)).filter
    (· ≠ Listener.closeL)).filter
    (· ≠ Listener.messageL)).filter
    (· ≠ Listener.errorL))

/-- Embeds OutboundWebSocketRpcHandler.handleClose (source lines 334-344):
when a socket is attached, unbind the four handler listeners from it; then
emit disconnect(code, reason) unconditionally. Returns the handler socket
afterwards and the emitted events. -/
def handleClose (sock : Option SocketObj) (code : Nat) (reason : String) :
    Option SocketObj × List HEvent :=
  let s :=
    match sock with
    | none => none
    | some s => some { s with listeners := removeHandlerListeners s.listeners }
  (s, [HEvent.disconnect code reason])

/-- A JSON value as produced by JSON.parse. Numbers are modelled by
integers, which covers every correlation id the JSONRPCClient produces. -/
inductive Json
  | null
  | bool (b : Bool)
  | num (n : Int)
  | str (s : String)
  | arr (xs : List Json)
  | obj (fields : List (String × Json))

/-- JavaScript truthiness of a parsed JSON value: null, false, 0 and the
empty string are falsy, everything else is truthy. -/
def jsTruthy : Json → Bool
  | Json.null => false
  | Json.bool b => b
  | Json.num n => n ≠ 0
  | Json.str s => s ≠ ""
  | Json.arr _ => true
  | Json.obj _ => true

/-- Property access d.k on a parsed value: the first binding of the key in
an object, undefined (none) otherwise. -/
def getField : Json → String → Option Json
  | Json.obj fields, k =>
      match fields.find? (fun f => f.fst = k) with
      | some f => some f.snd
      | none => none
  | _, _ => none

/-- Truthiness of d.k, where an absent field is undefined and falsy. -/
def fieldTruthy (d : Json) (k : String) : Bool :=
  match getField d k with
  | some v => jsTruthy v
  | none => false

/-- Strict equality d.method === lit for a string literal: true iff the
field holds exactly that string. -/
def methodIs (d : Json) (lit : String) : Bool :=
  match getField d "method" with
  | some (Json.str s) => s = lit
  | _ => false

/-- What the message dispatch path of the handler does with one frame. -/
inductive Dispatch
  | receive (d : Json)
  | emitStatusUpdate (params : Option Json)
  | emitEvent (params : Option Json)
  | ignored
  | throwParse

/-- The notification branch of handleMessage: the if-chain on d.method
after the id test has failed (source lines 356-363). An unmatched method
falls off the chain and the frame is dropped without any event. -/
def notifDispatch (d : Json) : Dispatch :=
  if methodIs d "NotifyStatus" ∨ methodIs d "NotifyFullStatus" then
    Dispatch.emitStatusUpdate (getField d "params")
  else if methodIs d "NotifyEvent" then
    Dispatch.emitEvent (getField d "params")
  else
    Dispatch.ignored

/-- Embeds OutboundWebSocketRpcHandler.handleMessage (source lines
349-364). The input is the outcome of JSON.parse on the frame: a parse
failure makes JSON.parse throw, and the exception escapes handleMessage,
which has no try/catch. A parsed frame with a truthy id is handed to
this.client.receive; otherwise the method chain runs. -/
def handleMessage (data : Except String Json) : Dispatch :=
  match data with
  | Except.error _ => Dispatch.throwParse
  | Except.ok d =>
      if fieldTruthy d "id" then Dispatch.receive d
      else notifDispatch d

/-- An OutboundWebSocketRpcHandler instance as stored in the registry of
the server. JS reference identity is modelled by a creation counter hid:
two handlers constructed at different times have different hid. -/
structure HandlerObj where
  hid : Nat
  socket : Option SocketObj
deriving DecidableEq, Repr

/-- The state of an OutboundWebSocketServer: the rpcHandlers Map (an
association list with unique keys, first binding wins on lookup) and the
counter supplying identities to freshly constructed handlers. -/
structure ServerState where
  rpcHandlers : List (String × HandlerObj)
  nextHid : Nat
deriving DecidableEq, Repr

/-- Map.prototype.get on the handler registry. -/
def mapGet (m : List (String × HandlerObj)) (k : String) : Option HandlerObj :=
  match m.find? (fun e => e.fst = k) with
  | some e => some e.snd
  | none => none

/-- Map.prototype.set on the handler registry: replaces an existing binding
in place, otherwise appends. -/
def mapSet (m : List (String × HandlerObj)) (k : String) (v : HandlerObj) :
    List (String × HandlerObj) :=
  match m with
  | [] => [(k, v)]
  | e :: rest =>
      if e.fst = k then (k, v) :: rest
      else e :: mapSet rest k v

/-- Embeds OutboundWebSocketServer.getRpcHandler (source lines 58-68): look
the device id up in rpcHandlers; when absent, construct a new handler with a
null socket, store it, and return it; when present, return the stored
handler untouched. -/
def getRpcHandler (s : ServerState) (deviceId : String) :
    HandlerObj × ServerState :=
  match mapGet s.rpcHandlers deviceId with
  | some h => (h, s)
  | none =>
      let h : HandlerObj := { hid := s.nextHid, socket := none }
      (h, { rpcHandlers := mapSet s.rpcHandlers deviceId h,
            nextHid := s.nextHid + 1 })

/-- The JSON-RPC request payload the JSONRPCClient hands to the transmit
function: a jsonrpc tag, a fresh numeric correlation id, the method and the
params. It never carries a src key. -/
structure RpcPayload where
  id : Int
  method : String
  params : Option Json

/-- The enumerable own fields of a JSONRPCClient request payload, in
property order, as spread by sendRequest. -/
def payloadFields (p : RpcPayload) : List (String × Json) :=
  [("jsonrpc", Json.str "2.0"), ("id", Json.num p.id),
   ("method", Json.str p.method)] ++
  (match p.params with
   | some v => [("params", v)]
   | none => [])

/-- Embeds OutboundWebSocketRpcHandler.sendRequest (source lines 299-322)
on its success path: with no socket it rejects; otherwise it serializes
the object literal with src set to the configured client id followed by
the spread payload fields, and writes that frame to the socket. -/
def sendRequest (sock : Option SocketObj) (clientId : String)
    (p : RpcPayload) : Except String (List (String × Json)) :=
  match sock with
  | none => Except.error "WebSocket disconnected"
  | some _ => Except.ok (("src", Json.str clientId) :: payloadFields p)

/-- Embeds OutboundWebSocketRpcHandler.handleRequest (source lines
287-294): throw before any send when the handler is not connected, else
delegate to sendRequest. -/
def handleRequest (sock : Option SocketObj) (clientId : String)
    (p : RpcPayload) : Except String (List (String × Json)) :=
  if ¬ connectedState sock then Except.error "WebSocket disconnected"
  else sendRequest sock clientId p

/-- Outcome of one request call: the frames actually written to the socket
and, when the transmit function failed, the rejection reason of the
returned future. -/
structure RequestResult where
  sent : List (List (String × Json))
  rejected : Option String

/-- Modelled from the spec: the Correlation Client (the json-rpc-2.0
JSONRPCClient, an external dependency whose source is not under src/) in
client.timeout(...).request(method, params) assigns a fresh correlation id,
builds the payload and passes it to the transmit function handleRequest;
when the transmit function throws or rejects, the returned future rejects
immediately with that reason and nothing has been written. Composed with
the embedded handleRequest this gives the outcome of
OutboundWebSocketRpcHandler.request (source lines 217-222). -/
def requestCall (sock : Option SocketObj) (clientId : String)
    (freshId : Int) (method : String) (params : Option Json) : RequestResult :=
  match handleRequest sock clientId { id := freshId, method := method, params := params } with
  | Except.error reason => { sent := [], rejected := some reason }
  | Except.ok frame => { sent := [frame], rejected := none }

/-- The state of a handler that destroy operates on: its socket and the
correlation ids of the currently pending requests, each holding an expiry
timer inside the JSONRPCClient. -/
structure HandlerState where
  sock : Option SocketObj
  pendingIds : List Int

/-- Everything observable about one destroy call, run to resolution: the
rejections issued to pending requests, the pending set afterwards, the
close call placed on the socket (status code and reason) if any, whether
destroy resolved without waiting for a close event, the handler events
emitted while waiting, and the socket as it stands once destroy has
resolved. -/
structure DestroyFinal where
  rejections : List (Int × String)
  pendingAfter : List Int
  closeCall : Option (Nat × String)
  resolvedImmediately : Bool
  events : List HEvent
  sockAfter : Option SocketObj

/-- Embeds OutboundWebSocketRpcHandler.destroy together with disconnect and
awaitDisconnect (source lines 223-228, 246-261, 265-282), run until the
returned promise settles. destroy first has the JSONRPCClient reject every
pending request with reason Connection closed, clearing their timers
(rejectAllPendingRequests). disconnect then inspects the socket: with none
it returns at once; OPEN and CONNECTING place socket.close(1000, User
request), which moves the readiness to CLOSING, and fall through to
CLOSING, which awaits the close event; an attached CLOSED socket matches no
case and resolves at once. When a close event with closeCode and
closeReason is awaited and arrives, the handler closeHandler runs only if
it is still bound to the socket; it then unbinds the four listeners and
emits disconnect. The once-bound resolver of awaitDisconnect always runs
and settles the promise. -/
def destroyRun (h : HandlerState) (closeCode : Nat) (closeReason : String) :
    DestroyFinal :=
  let rejections := h.pendingIds.map (fun i => (i, "Connection closed"))
  match h.sock with
  | none =>
      { rejections := rejections, pendingAfter := [],
        closeCall := none, resolvedImmediately := true,
        events := [], sockAfter := none }
  | some s =>
      match s.readyState with
      | ReadyState.CLOSED =>
          { rejections := rejections, pendingAfter := [],
            closeCall := none, resolvedImmediately := true,
            events := [], sockAfter := some s }
      | ReadyState.CLOSING =>
          let fires := Listener.closeL ∈ s.listeners
          { rejections := rejections, pendingAfter := [],
            closeCall := none, resolvedImmediately := false,
            events := if fires then [HEvent.disconnect closeCode closeReason] else [],
            sockAfter := some { s with
              readyState := ReadyState.CLOSED,
              listeners := if fires then removeHandlerListeners s.listeners
                           else s.listeners } }
      | _ =>
          let fires := Listener.closeL ∈ s.listeners
          { rejections := rejections, pendingAfter := [],
            closeCall := some (1000, "User request"), resolvedImmediately := false,
            events := if fires then [HEvent.disconnect closeCode closeReason] else [],
            sockAfter := some { s with
              readyState := ReadyState.CLOSED,
              listeners := if fires then removeHandlerListeners s.listeners
                           else s.listeners } }

/-- Events emitted by the OutboundWebSocketServer during first contact on
an inbound socket. -/
inductive ServerEvent
  | errorEv (msg : String)
  | discover (deviceId : String) (protocol : String)
deriving DecidableEq, Repr

/-- The first thing that happens on a freshly accepted inbound socket:
either a first message arrives (whose JSON.parse outcome is given), or the
socket closes, or it errors, before any message. -/
inductive FirstContact
  | message (data : Except String Json)
  | closedEarly (code : Nat)
  | erroredEarly (msg : String)

/-- Observable outcome of the first-contact callbacks installed by
handleConnection. -/
structure ConnResult where
  server : ServerState
  events : List ServerEvent
  socketCloseCalled : Bool
  serverListenersRemoved : Bool
  reemitted : Bool

/-- Whether a parsed first message carries a string src field, the test of
source line 108. -/
def hasStringSrc (d : Json) : Bool :=
  match getField d "src" with
  | some (Json.str _) => true
  | _ => false

/-- A first contact that the spec classes as a failure: parse error,
missing or non-string src, or a close or error before any message. -/
def isFailureContact : FirstContact → Bool
  | FirstContact.closedEarly _ => true
  | FirstContact.erroredEarly _ => true
  | FirstContact.message (Except.error _) => true
  | FirstContact.message (Except.ok d) => ¬ hasStringSrc d

/-- Embeds the messageHandler, closeHandler and errorHandler closures of
OutboundWebSocketServer.handleConnection (source lines 100-158). A parsed
message with a string src either replaces the socket of an existing handler
and re-emits the message, or stores a brand-new handler built around the
socket (its constructor runs setupSocket) and emits discover. A missing or
non-string src throws, and the catch turns it, like a parse failure, into
an error event. An early close or error emits an error event. Every path
ends in removeListeners; no path calls socket.close. -/
def handleFirstContact (s : ServerState) (sock : SocketObj)
    (c : FirstContact) : ConnResult :=
  match c with
  | FirstContact.closedEarly code =>
      { server := s,
        events := [ServerEvent.errorEv
          ("Incoming connection closed unexpectedly (code: " ++ toString code ++ ")")],
        socketCloseCalled := false, serverListenersRemoved := true,
        reemitted := false }
  | FirstContact.erroredEarly msg =>
      { server := s,
        events := [ServerEvent.errorEv ("Error in incoming connection: " ++ msg)],
        socketCloseCalled := false, serverListenersRemoved := true,
        reemitted := false }
  | FirstContact.message (Except.error e) =>
      { server := s, events := [ServerEvent.errorEv e],
        socketCloseCalled := false, serverListenersRemoved := true,
        reemitted := false }
  | FirstContact.message (Except.ok d) =>
      match getField d "src" with
      | some (Json.str deviceId) =>
          (match mapGet s.rpcHandlers deviceId with
           | some h =>
               let swapped := setSocket h.socket (some sock)
               let updated : HandlerObj := { h with socket := swapped.newSocket }
               { server := { s with rpcHandlers := mapSet s.rpcHandlers deviceId updated },
                 events := [],
                 socketCloseCalled := false, serverListenersRemoved := true,
                 reemitted := true }
           | none =>
               let h : HandlerObj :=
                 { hid := s.nextHid, socket := setupSocket (some sock) }
               { server := { rpcHandlers := mapSet s.rpcHandlers deviceId h,
                             nextHid := s.nextHid + 1 },
                 events := [ServerEvent.discover deviceId "outboundWebsocket"],
                 socketCloseCalled := false, serverListenersRemoved := true,
                 reemitted := false })
      | _ =>
          { server := s,
            events := [ServerEvent.errorEv "Message source missing or invalid"],
            socketCloseCalled := false, serverListenersRemoved := true,
            reemitted := false }

/-- Characterization of the events the socket setter emits on a genuine
replacement: connect exactly when the swap enters the connected state,
disconnect(1000, Socket replaced) exactly when it leaves it, nothing
otherwise. -/
theorem setSocket_events_eq (oldS newS : Option SocketObj) (hne : newS ≠ oldS) :
    (setSocket oldS newS).events =
      (if connectedState newS ∧ ¬ connectedState oldS then [HEvent.connect]
       else if connectedState oldS ∧ ¬ connectedState newS then
         [HEvent.disconnect 1000 "Socket replaced"]
       else []) := by
  rcases oldS with _ | so <;> rcases newS with _ | sn
  · exact absurd rfl hne
  · simp [setSocket, hne, connectedState]
  · simp [setSocket, hne, connectedState]
  · simp only [setSocket, hne, if_neg hne, connectedState]
    rcases so with ⟨sido, sto, lso⟩
    rcases sn with ⟨sidn, stn, lsn⟩
    by_cases hst : stn = sto
    · subst hst
      cases stn <;> simp
    · cases sto <;> cases stn <;> simp_all

/-- C1: on a socket replacement with an old socket present and a distinct
new socket (possibly absent), the handler emits exactly one of connect or
disconnect when the old and new readiness cross the OPEN boundary, and
emits neither event when old and new are both connected or both not. -/
theorem swap_emits_one_event_iff_boundary_crossed
    (oldS newS : Option SocketObj) (_hp : oldS.isSome = true) (hne : newS ≠ oldS) :
    ((connectedState oldS ≠ connectedState newS) →
      ((setSocket oldS newS).events = [HEvent.connect] ∨
       (setSocket oldS newS).events = [HEvent.disconnect 1000 "Socket replaced"])) ∧
    ((connectedState oldS = connectedState newS) →
      (setSocket oldS newS).events = []) := by
  rw [setSocket_events_eq oldS newS hne]
  constructor
  · intro hcross
    cases ho : connectedState oldS <;> cases hn : connectedState newS <;>
      simp_all
  · intro heq
    cases ho : connectedState oldS <;> cases hn : connectedState newS <;>
      simp_all

/-- Witness for C1 at a concrete swap: an OPEN socket replaced by an absent
socket crosses the boundary and emits exactly the disconnect event. -/
theorem swap_emits_one_event_iff_boundary_crossed_witness :
    (((connectedState (some (SocketObj.mk 0 ReadyState.OPEN handlerListeners)) ≠
        connectedState (none : Option SocketObj)) →
      ((setSocket (some (SocketObj.mk 0 ReadyState.OPEN handlerListeners)) none).events =
        [HEvent.connect] ∨
       (setSocket (some (SocketObj.mk 0 ReadyState.OPEN handlerListeners)) none).events =
        [HEvent.disconnect 1000 "Socket replaced"])) ∧
    ((connectedState (some (SocketObj.mk 0 ReadyState.OPEN handlerListeners)) =
        connectedState (none : Option SocketObj)) →
      (setSocket (some (SocketObj.mk 0 ReadyState.OPEN handlerListeners)) none).events = [])) :=
  swap_emits_one_event_iff_boundary_crossed
    (some (SocketObj.mk 0 ReadyState.OPEN handlerListeners)) none
    (by decide) (by decide)

/-- Counterexample to C5: replacing an OPEN socket that carries the four
handler listeners by a fresh OPEN socket leaves the old socket with all
four listeners still bound, so the claim that no handler listener remains
bound to the old socket is false. -/
theorem swap_does_not_unbind_old_socket :
    (setSocket (some (SocketObj.mk 0 ReadyState.OPEN handlerListeners))
               (some (SocketObj.mk 1 ReadyState.OPEN []))).oldSocket =
      some (SocketObj.mk 0 ReadyState.OPEN handlerListeners) ∧
    handlerListeners ≠ [] := by
  constructor
  · decide
  · decide

/-- C5 amended: a socket replacement leaves the previously attached socket
object entirely untouched: the handler neither closes it nor unbinds any
listener from it, so its readiness and its bound listeners are unchanged
after the swap. -/
theorem swap_leaves_old_socket_untouched
    (oldS newS : Option SocketObj) (hne : newS ≠ oldS) :
    (setSocket oldS newS).oldSocket = oldS ∧
    (setSocket oldS newS).oldSocket.map SocketObj.readyState =
      oldS.map SocketObj.readyState ∧
    (setSocket oldS newS).oldSocket.map SocketObj.listeners =
      oldS.map SocketObj.listeners := by
  refine ⟨?_, ?_, ?_⟩ <;> simp [setSocket, hne]

/-- Witness for the amended C5 at a concrete swap of two OPEN sockets. -/
theorem swap_leaves_old_socket_untouched_witness :
    ((setSocket (some (SocketObj.mk 0 ReadyState.OPEN handlerListeners))
                (some (SocketObj.mk 1 ReadyState.OPEN []))).oldSocket =
      some (SocketObj.mk 0 ReadyState.OPEN handlerListeners) ∧
     (setSocket (some (SocketObj.mk 0 ReadyState.OPEN handlerListeners))
                (some (SocketObj.mk 1 ReadyState.OPEN []))).oldSocket.map SocketObj.readyState =
      (some (SocketObj.mk 0 ReadyState.OPEN handlerListeners)).map SocketObj.readyState ∧
     (setSocket (some (SocketObj.mk 0 ReadyState.OPEN handlerListeners))
                (some (SocketObj.mk 1 ReadyState.OPEN []))).oldSocket.map SocketObj.listeners =
      (some (SocketObj.mk 0 ReadyState.OPEN handlerListeners)).map SocketObj.listeners) :=
  swap_leaves_old_socket_untouched
    (some (SocketObj.mk 0 ReadyState.OPEN handlerListeners))
    (some (SocketObj.mk 1 ReadyState.OPEN [])) (by decide)

/-- Counterexample to C6: a socket that is still CONNECTING, so that the
handler was never in a connected state, reports a close; handleClose
nevertheless emits a disconnect event, while the claim requires none. -/
theorem close_without_connection_still_emits_disconnect :
    connectedState (some (SocketObj.mk 0 ReadyState.CONNECTING handlerListeners)) = false ∧
    (handleClose (some (SocketObj.mk 0 ReadyState.CONNECTING handlerListeners))
        1006 "went away").2 = [HEvent.disconnect 1006 "went away"] ∧
    [HEvent.disconnect 1006 "went away"] ≠ ([] : List HEvent) := by
  refine ⟨by decide, by decide, by decide⟩

/-- C6 amended: every close report makes the handler emit exactly one
disconnect event carrying the close code and reason, unconditionally,
whether or not the handler was ever connected. -/
theorem handleClose_always_emits_disconnect
    (sock : Option SocketObj) (code : Nat) (reason : String) :
    (handleClose sock code reason).2 = [HEvent.disconnect code reason] := by
  cases sock <;> rfl

/-- Storing a handler under a key makes lookup of that key return it. -/
theorem mapGet_mapSet_self (m : List (String × HandlerObj)) (k : String)
    (v : HandlerObj) : mapGet (mapSet m k v) k = some v := by
  induction m with
  | nil => simp [mapGet, mapSet, List.find?]
  | cons e rest ih =>
      by_cases hk : e.fst = k
      · simp [mapSet, hk, mapGet, List.find?]
      · simpa [mapSet, hk, mapGet, List.find?] using ih

/-- C2: calling getRpcHandler twice with the same device id returns the
identical handler and leaves the server state unchanged by the second
call; when the id was unknown, the first call created a socket-less
handler and stored it in the registry. -/
theorem getRpcHandler_idempotent (s : ServerState) (deviceId : String) :
    (getRpcHandler (getRpcHandler s deviceId).2 deviceId).1 =
      (getRpcHandler s deviceId).1 ∧
    (getRpcHandler (getRpcHandler s deviceId).2 deviceId).2 =
      (getRpcHandler s deviceId).2 ∧
    (mapGet s.rpcHandlers deviceId = none →
      (getRpcHandler s deviceId).1.socket = none ∧
      mapGet (getRpcHandler s deviceId).2.rpcHandlers deviceId =
        some (getRpcHandler s deviceId).1) := by
  cases hm : mapGet s.rpcHandlers deviceId with
  | some h =>
      refine ⟨?_, ?_, ?_⟩
      · simp [getRpcHandler, hm]
      · simp [getRpcHandler, hm]
      · intro hc
        exact Option.noConfusion hc
  | none =>
      have hstored :
          mapGet (getRpcHandler s deviceId).2.rpcHandlers deviceId =
            some (getRpcHandler s deviceId).1 := by
        simp [getRpcHandler, hm, mapGet_mapSet_self]
      refine ⟨?_, ?_, fun _ => ⟨?_, hstored⟩⟩
      · rw [getRpcHandler, hstored]
      · rw [getRpcHandler, hstored]
      · simp [getRpcHandler, hm]

/-- Witness for C2 at a concrete empty registry and device id. -/
theorem getRpcHandler_idempotent_witness :
    ((getRpcHandler (getRpcHandler (ServerState.mk [] 0) "shellyplus1-aabbcc").2
        "shellyplus1-aabbcc").1 =
      (getRpcHandler (ServerState.mk [] 0) "shellyplus1-aabbcc").1 ∧
     (getRpcHandler (getRpcHandler (ServerState.mk [] 0) "shellyplus1-aabbcc").2
        "shellyplus1-aabbcc").2 =
      (getRpcHandler (ServerState.mk [] 0) "shellyplus1-aabbcc").2 ∧
     (mapGet (ServerState.mk [] 0).rpcHandlers "shellyplus1-aabbcc" = none →
       (getRpcHandler (ServerState.mk [] 0) "shellyplus1-aabbcc").1.socket = none ∧
       mapGet (getRpcHandler (ServerState.mk [] 0) "shellyplus1-aabbcc").2.rpcHandlers
          "shellyplus1-aabbcc" =
        some (getRpcHandler (ServerState.mk [] 0) "shellyplus1-aabbcc").1)) :=
  getRpcHandler_idempotent (ServerState.mk [] 0) "shellyplus1-aabbcc"

/-- C3: a request issued while the socket is absent or not OPEN makes the
returned future reject with the disconnected reason, and no frame is
written to the socket. -/
theorem request_rejects_without_sending_when_not_open
    (sock : Option SocketObj) (clientId : String) (freshId : Int)
    (rpcMethod : String) (rpcParams : Option Json)
    (h : connectedState sock = false) :
    (requestCall sock clientId freshId rpcMethod rpcParams).rejected =
      some "WebSocket disconnected" ∧
    (requestCall sock clientId freshId rpcMethod rpcParams).sent = [] := by
  simp [requestCall, handleRequest, h]

/-- Witness for C3 on a handler holding a socket that is still CONNECTING. -/
theorem request_rejects_without_sending_when_not_open_witness :
    ((requestCall (some (SocketObj.mk 0 ReadyState.CONNECTING handlerListeners))
        "node-shellies-ng-1" 1 "Shelly.GetStatus" none).rejected =
      some "WebSocket disconnected" ∧
     (requestCall (some (SocketObj.mk 0 ReadyState.CONNECTING handlerListeners))
        "node-shellies-ng-1" 1 "Shelly.GetStatus" none).sent = []) :=
  request_rejects_without_sending_when_not_open
    (some (SocketObj.mk 0 ReadyState.CONNECTING handlerListeners))
    "node-shellies-ng-1" 1 "Shelly.GetStatus" none (by decide)

/-- C9: a request transmitted over an OPEN socket produces exactly one
outgoing frame, whose first field is src set to the configured client id
and which carries the JSON-RPC fields of the payload. -/
theorem sent_frame_contains_src_and_rpc_fields
    (sock : Option SocketObj) (clientId : String) (freshId : Int)
    (rpcMethod : String) (rpcParams : Option Json)
    (h : connectedState sock = true) :
    ∃ frame,
      (requestCall sock clientId freshId rpcMethod rpcParams).sent = [frame] ∧
      (requestCall sock clientId freshId rpcMethod rpcParams).rejected = none ∧
      frame.head? = some ("src", Json.str clientId) ∧
      ("jsonrpc", Json.str "2.0") ∈ frame ∧
      ("id", Json.num freshId) ∈ frame ∧
      ("method", Json.str rpcMethod) ∈ frame ∧
      (∀ v, rpcParams = some v → ("params", v) ∈ frame) := by
  rcases sock with _ | s
  · simp [connectedState] at h
  · refine ⟨("src", Json.str clientId) ::
      payloadFields (RpcPayload.mk freshId rpcMethod rpcParams), ?_, ?_, ?_, ?_, ?_, ?_, ?_⟩
    · simp [requestCall, handleRequest, h, sendRequest]
    · simp [requestCall, handleRequest, h, sendRequest]
    · rfl
    · simp [payloadFields]
    · simp [payloadFields]
    · simp [payloadFields]
    · intro v hv
      subst hv
      simp [payloadFields]

/-- Witness for C9 on a concrete OPEN socket and request. -/
theorem sent_frame_contains_src_and_rpc_fields_witness :
    (∃ frame,
      (requestCall (some (SocketObj.mk 0 ReadyState.OPEN handlerListeners))
        "node-shellies-ng-1" 1 "Shelly.GetStatus" none).sent = [frame] ∧
      (requestCall (some (SocketObj.mk 0 ReadyState.OPEN handlerListeners))
        "node-shellies-ng-1" 1 "Shelly.GetStatus" none).rejected = none ∧
      frame.head? = some ("src", Json.str "node-shellies-ng-1") ∧
      ("jsonrpc", Json.str "2.0") ∈ frame ∧
      ("id", Json.num 1) ∈ frame ∧
      ("method", Json.str "Shelly.GetStatus") ∈ frame ∧
      (∀ v, (none : Option Json) = some v → ("params", v) ∈ frame)) :=
  sent_frame_contains_src_and_rpc_fields
    (some (SocketObj.mk 0 ReadyState.OPEN handlerListeners))
    "node-shellies-ng-1" 1 "Shelly.GetStatus" none (by decide)

/-- The four .off calls of handleClose remove every listener of the
handler, whatever the binding history was. -/
theorem removeHandlerListeners_eq_nil (ls : List Listener) :
    removeHandlerListeners ls = [] := by
  induction ls with
  | nil => rfl
  | cons l rest ih =>
      cases l <;> simpa [removeHandlerListeners, List.filter] using ih

/-- Counterexample to C4: on a handler whose attached socket is already
CLOSED but still carries the four handler listeners, destroy resolves
immediately and leaves all four listeners bound, contradicting the claim
that no socket event listener of the handler remains registered after
destroy resolves. -/
theorem destroy_leaves_listeners_on_already_closed_socket :
    (destroyRun (HandlerState.mk
        (some (SocketObj.mk 0 ReadyState.CLOSED handlerListeners)) [1])
        1005 "").resolvedImmediately = true ∧
    (destroyRun (HandlerState.mk
        (some (SocketObj.mk 0 ReadyState.CLOSED handlerListeners)) [1])
        1005 "").sockAfter.map SocketObj.listeners = some handlerListeners ∧
    handlerListeners ≠ [] := by
  refine ⟨rfl, rfl, by decide⟩

/-- C4 amended: destroy rejects every pending request with reason
Connection closed and empties the pending set with its timers; with no
socket it resolves immediately; an OPEN or CONNECTING socket gets a
close(1000, User request) call and destroy waits for the close event; a
CLOSING socket is only waited for; and when the awaited close event
arrives with the close handler still bound, every handler listener is
removed from the current socket. A socket attached in the already CLOSED
state, however, resolves destroy immediately with its listeners left
bound. -/
theorem destroy_behavior (h : HandlerState) (code : Nat) (reason : String) :
    (destroyRun h code reason).rejections =
      h.pendingIds.map (fun i => (i, "Connection closed")) ∧
    (destroyRun h code reason).pendingAfter = [] ∧
    (h.sock = none →
      (destroyRun h code reason).resolvedImmediately = true ∧
      (destroyRun h code reason).closeCall = none) ∧
    (∀ s, h.sock = some s →
      ((s.readyState = ReadyState.OPEN ∨ s.readyState = ReadyState.CONNECTING) →
        (destroyRun h code reason).closeCall = some (1000, "User request") ∧
        (destroyRun h code reason).resolvedImmediately = false) ∧
      (s.readyState = ReadyState.CLOSING →
        (destroyRun h code reason).closeCall = none ∧
        (destroyRun h code reason).resolvedImmediately = false) ∧
      (s.readyState = ReadyState.CLOSED →
        (destroyRun h code reason).resolvedImmediately = true ∧
        (destroyRun h code reason).sockAfter = some s) ∧
      (s.readyState ≠ ReadyState.CLOSED → Listener.closeL ∈ s.listeners →
        (destroyRun h code reason).sockAfter.map SocketObj.listeners = some [] ∧
        (destroyRun h code reason).events = [HEvent.disconnect code reason])) := by
  rcases h with ⟨sock, pending⟩
  rcases sock with _ | s
  · refine ⟨rfl, rfl, fun _ => ⟨rfl, rfl⟩, fun s hs => Option.noConfusion hs⟩
  · refine ⟨?_, ?_, ?_, ?_⟩
    · cases hst : s.readyState <;> simp [destroyRun, hst]
    · cases hst : s.readyState <;> simp [destroyRun, hst]
    · intro hc
      exact Option.noConfusion hc
    · intro s2 hs2
      obtain rfl : s = s2 := Option.some.inj hs2
      refine ⟨?_, ?_, ?_, ?_⟩
      · rintro (hst | hst) <;> simp [destroyRun, hst]
      · intro hst
        simp [destroyRun, hst]
      · intro hst
        rcases s with ⟨sid, st, ls⟩
        simp only at hst
        subst hst
        simp [destroyRun]
      · intro hst hmem
        rcases s with ⟨sid, st, ls⟩
        simp only at hst hmem ⊢
        cases st <;>
          simp [destroyRun, hmem, removeHandlerListeners_eq_nil] at hst ⊢

/-- Witness for the amended C4 on a handler with an OPEN socket, the four
listeners bound, and one pending request. -/
theorem destroy_behavior_witness :
    ((destroyRun (HandlerState.mk
        (some (SocketObj.mk 0 ReadyState.OPEN handlerListeners)) [1]) 1000 "done").rejections =
      ([1] : List Int).map (fun i => (i, "Connection closed")) ∧
     (destroyRun (HandlerState.mk
        (some (SocketObj.mk 0 ReadyState.OPEN handlerListeners)) [1]) 1000 "done").pendingAfter = [] ∧
     ((some (SocketObj.mk 0 ReadyState.OPEN handlerListeners) : Option SocketObj) = none →
       (destroyRun (HandlerState.mk
          (some (SocketObj.mk 0 ReadyState.OPEN handlerListeners)) [1]) 1000 "done").resolvedImmediately = true ∧
       (destroyRun (HandlerState.mk
          (some (SocketObj.mk 0 ReadyState.OPEN handlerListeners)) [1]) 1000 "done").closeCall = none) ∧
     (∀ s, (some (SocketObj.mk 0 ReadyState.OPEN handlerListeners) : Option SocketObj) = some s →
       ((s.readyState = ReadyState.OPEN ∨ s.readyState = ReadyState.CONNECTING) →
         (destroyRun (HandlerState.mk
            (some (SocketObj.mk 0 ReadyState.OPEN handlerListeners)) [1]) 1000 "done").closeCall =
           some (1000, "User request") ∧
         (destroyRun (HandlerState.mk
            (some (SocketObj.mk 0 ReadyState.OPEN handlerListeners)) [1]) 1000 "done").resolvedImmediately = false) ∧
       (s.readyState = ReadyState.CLOSING →
         (destroyRun (HandlerState.mk
            (some (SocketObj.mk 0 ReadyState.OPEN handlerListeners)) [1]) 1000 "done").closeCall = none ∧
         (destroyRun (HandlerState.mk
            (some (SocketObj.mk 0 ReadyState.OPEN handlerListeners)) [1]) 1000 "done").resolvedImmediately = false) ∧
       (s.readyState = ReadyState.CLOSED →
         (destroyRun (HandlerState.mk
            (some (SocketObj.mk 0 ReadyState.OPEN handlerListeners)) [1]) 1000 "done").resolvedImmediately = true ∧
         (destroyRun (HandlerState.mk
            (some (SocketObj.mk 0 ReadyState.OPEN handlerListeners)) [1]) 1000 "done").sockAfter = some s) ∧
       (s.readyState ≠ ReadyState.CLOSED → Listener.closeL ∈ s.listeners →
         (destroyRun (HandlerState.mk
            (some (SocketObj.mk 0 ReadyState.OPEN handlerListeners)) [1]) 1000 "done").sockAfter.map SocketObj.listeners = some [] ∧
         (destroyRun (HandlerState.mk
            (some (SocketObj.mk 0 ReadyState.OPEN handlerListeners)) [1]) 1000 "done").events =
           [HEvent.disconnect 1000 "done"]))) :=
  destroy_behavior (HandlerState.mk
    (some (SocketObj.mk 0 ReadyState.OPEN handlerListeners)) [1]) 1000 "done"

/-- Counterexample to C7: a first message that fails to parse arrives on a
socket that is still OPEN; the server emits the error event and leaves the
registry untouched, but never closes the socket, contradicting the claim
that the socket is closed if still open. -/
theorem bad_first_message_does_not_close_socket :
    (handleFirstContact (ServerState.mk [] 0) (SocketObj.mk 0 ReadyState.OPEN [])
        (FirstContact.message (Except.error "Unexpected token"))).socketCloseCalled = false ∧
    (handleFirstContact (ServerState.mk [] 0) (SocketObj.mk 0 ReadyState.OPEN [])
        (FirstContact.message (Except.error "Unexpected token"))).events =
      [ServerEvent.errorEv "Unexpected token"] ∧
    (handleFirstContact (ServerState.mk [] 0) (SocketObj.mk 0 ReadyState.OPEN [])
        (FirstContact.message (Except.error "Unexpected token"))).server =
      ServerState.mk [] 0 := by
  refine ⟨rfl, rfl, rfl⟩

/-- C7 amended: on every failed first contact (unparseable or src-less
first message, or a close or error before any message) the server emits
exactly one error event, removes its own first-contact listeners, creates
no handler (the registry is unchanged), and abandons the socket without
closing it. -/
theorem failed_first_contact_behavior (s : ServerState) (sock : SocketObj)
    (c : FirstContact) (hf : isFailureContact c = true) :
    (handleFirstContact s sock c).server = s ∧
    (∃ msg, (handleFirstContact s sock c).events = [ServerEvent.errorEv msg]) ∧
    (handleFirstContact s sock c).socketCloseCalled = false ∧
    (handleFirstContact s sock c).serverListenersRemoved = true := by
  cases c with
  | closedEarly code =>
      exact ⟨rfl, ⟨_, rfl⟩, rfl, rfl⟩
  | erroredEarly msg =>
      exact ⟨rfl, ⟨_, rfl⟩, rfl, rfl⟩
  | message data =>
      cases data with
      | error e =>
          exact ⟨rfl, ⟨_, rfl⟩, rfl, rfl⟩
      | ok d =>
          have hsrc : hasStringSrc d = false := by
            simpa [isFailureContact] using hf
          rcases hv : getField d "src" with _ | v
          · refine ⟨?_, ⟨"Message source missing or invalid", ?_⟩, ?_, ?_⟩ <;>
              simp [handleFirstContact, hv]
          · cases v
            case str sv => simp [hasStringSrc, hv] at hsrc
            all_goals
              refine ⟨?_, ⟨"Message source missing or invalid", ?_⟩, ?_, ?_⟩ <;>
                simp [handleFirstContact, hv]

/-- Witness for the amended C7 on a first message with a numeric src. -/
theorem failed_first_contact_behavior_witness :
    ((handleFirstContact (ServerState.mk [] 0) (SocketObj.mk 0 ReadyState.OPEN [])
        (FirstContact.message (Except.ok (Json.obj [("src", Json.num 5)])))).server =
      ServerState.mk [] 0 ∧
     (∃ msg, (handleFirstContact (ServerState.mk [] 0) (SocketObj.mk 0 ReadyState.OPEN [])
        (FirstContact.message (Except.ok (Json.obj [("src", Json.num 5)])))).events =
       [ServerEvent.errorEv msg]) ∧
     (handleFirstContact (ServerState.mk [] 0) (SocketObj.mk 0 ReadyState.OPEN [])
        (FirstContact.message (Except.ok (Json.obj [("src", Json.num 5)])))).socketCloseCalled = false ∧
     (handleFirstContact (ServerState.mk [] 0) (SocketObj.mk 0 ReadyState.OPEN [])
        (FirstContact.message (Except.ok (Json.obj [("src", Json.num 5)])))).serverListenersRemoved = true) :=
  failed_first_contact_behavior (ServerState.mk [] 0)
    (SocketObj.mk 0 ReadyState.OPEN [])
    (FirstContact.message (Except.ok (Json.obj [("src", Json.num 5)])))
    (by rfl)

/-- A frame can strictly equal at most one method literal. -/
theorem methodIs_unique (d : Json) (a b : String)
    (ha : methodIs d a = true) (hb : methodIs d b = true) : a = b := by
  unfold methodIs at ha hb
  cases hm : getField d "method" <;> rw [hm] at ha hb
  · exact Bool.noConfusion ha
  · rename_i v
    cases v <;> simp_all

/-- The notification branch never hands a frame to client.receive. -/
theorem notifDispatch_ne_receive (d r : Json) :
    notifDispatch d ≠ Dispatch.receive r := by
  unfold notifDispatch
  split
  · simp
  · split <;> simp

/-- Counterexample to C8: a well-formed frame with an unrecognized method
falls off the dispatch chain with no event of any kind, and a frame that
fails to parse makes the dispatch path throw, while the claim requires an
error event and no exception in both situations. -/
theorem unknown_method_silently_dropped_and_parse_throws :
    handleMessage (Except.ok (Json.obj [("method", Json.str "Bogus")])) =
      Dispatch.ignored ∧
    handleMessage (Except.error "Unexpected token o in JSON") =
      Dispatch.throwParse := by
  refine ⟨rfl, rfl⟩

/-- C8 amended: a frame with a truthy id is handed to client.receive; a
frame whose method is NotifyStatus or NotifyFullStatus yields a
statusUpdate event with its params; NotifyEvent yields an event with its
params; every other parsed frame is silently dropped with no event; and a
frame that fails JSON parsing throws out of the dispatch path. -/
theorem handleMessage_dispatch (d : Json) :
    (fieldTruthy d "id" = true →
      handleMessage (Except.ok d) = Dispatch.receive d) ∧
    (fieldTruthy d "id" = false →
      ((methodIs d "NotifyStatus" = true ∨ methodIs d "NotifyFullStatus" = true) →
        handleMessage (Except.ok d) = Dispatch.emitStatusUpdate (getField d "params")) ∧
      (methodIs d "NotifyEvent" = true →
        handleMessage (Except.ok d) = Dispatch.emitEvent (getField d "params")) ∧
      (methodIs d "NotifyStatus" = false → methodIs d "NotifyFullStatus" = false →
        methodIs d "NotifyEvent" = false →
        handleMessage (Except.ok d) = Dispatch.ignored)) ∧
    (∀ e, handleMessage (Except.error e) = Dispatch.throwParse) := by
  refine ⟨?_, ?_, fun e => rfl⟩
  · intro hid
    simp [handleMessage, hid]
  · intro hid
    refine ⟨?_, ?_, ?_⟩
    · intro hm
      rcases hm with hm | hm <;> simp [handleMessage, hid, notifDispatch, hm]
    · intro hm
      have h1 : methodIs d "NotifyStatus" = false := by
        cases hs : methodIs d "NotifyStatus"
        · rfl
        · exact absurd (methodIs_unique d "NotifyStatus" "NotifyEvent" hs hm)
            (by decide)
      have h2 : methodIs d "NotifyFullStatus" = false := by
        cases hs : methodIs d "NotifyFullStatus"
        · rfl
        · exact absurd (methodIs_unique d "NotifyFullStatus" "NotifyEvent" hs hm)
            (by decide)
      simp [handleMessage, hid, notifDispatch, h1, h2, hm]
    · intro h1 h2 h3
      simp [handleMessage, hid, notifDispatch, h1, h2, h3]

/-- Witness for the amended C8 on a concrete NotifyStatus frame. -/
theorem handleMessage_dispatch_witness :
    ((fieldTruthy (Json.obj [("method", Json.str "NotifyStatus"), ("params", Json.obj [])]) "id" = true →
      handleMessage (Except.ok (Json.obj [("method", Json.str "NotifyStatus"), ("params", Json.obj [])])) =
        Dispatch.receive (Json.obj [("method", Json.str "NotifyStatus"), ("params", Json.obj [])])) ∧
     (fieldTruthy (Json.obj [("method", Json.str "NotifyStatus"), ("params", Json.obj [])]) "id" = false →
      ((methodIs (Json.obj [("method", Json.str "NotifyStatus"), ("params", Json.obj [])]) "NotifyStatus" = true ∨
        methodIs (Json.obj [("method", Json.str "NotifyStatus"), ("params", Json.obj [])]) "NotifyFullStatus" = true) →
        handleMessage (Except.ok (Json.obj [("method", Json.str "NotifyStatus"), ("params", Json.obj [])])) =
          Dispatch.emitStatusUpdate (getField (Json.obj [("method", Json.str "NotifyStatus"), ("params", Json.obj [])]) "params")) ∧
      (methodIs (Json.obj [("method", Json.str "NotifyStatus"), ("params", Json.obj [])]) "NotifyEvent" = true →
        handleMessage (Except.ok (Json.obj [("method", Json.str "NotifyStatus"), ("params", Json.obj [])])) =
          Dispatch.emitEvent (getField (Json.obj [("method", Json.str "NotifyStatus"), ("params", Json.obj [])]) "params")) ∧
      (methodIs (Json.obj [("method", Json.str "NotifyStatus"), ("params", Json.obj [])]) "NotifyStatus" = false →
        methodIs (Json.obj [("method", Json.str "NotifyStatus"), ("params", Json.obj [])]) "NotifyFullStatus" = false →
        methodIs (Json.obj [("method", Json.str "NotifyStatus"), ("params", Json.obj [])]) "NotifyEvent" = false →
        handleMessage (Except.ok (Json.obj [("method", Json.str "NotifyStatus"), ("params", Json.obj [])])) =
          Dispatch.ignored)) ∧
     (∀ e, handleMessage (Except.error e) = Dispatch.throwParse)) :=
  handleMessage_dispatch (Json.obj [("method", Json.str "NotifyStatus"), ("params", Json.obj [])])

/-- C10: a frame whose id field is present but falsy, such as the number 0,
is never handed to client.receive: it is dispatched through the
notification chain instead, so a response with correlation id 0 can never
settle a pending request. -/
theorem falsy_id_frame_never_reaches_receive (d v : Json)
    (hv : getField d "id" = some v) (hf : jsTruthy v = false) :
    (∀ r, handleMessage (Except.ok d) ≠ Dispatch.receive r) ∧
    handleMessage (Except.ok d) = notifDispatch d := by
  have ht : fieldTruthy d "id" = false := by
    rw [fieldTruthy, hv]
    exact hf
  refine ⟨fun r => ?_, ?_⟩
  · simp only [handleMessage, ht, Bool.false_eq_true, if_false]
    exact notifDispatch_ne_receive d r
  · simp only [handleMessage, ht, Bool.false_eq_true, if_false]

/-- Witness for C10 on a NotifyEvent frame carrying id 0. -/
theorem falsy_id_frame_never_reaches_receive_witness :
    ((∀ r, handleMessage (Except.ok (Json.obj
        [("id", Json.num 0), ("method", Json.str "NotifyEvent"), ("params", Json.null)])) ≠
      Dispatch.receive r) ∧
     handleMessage (Except.ok (Json.obj
        [("id", Json.num 0), ("method", Json.str "NotifyEvent"), ("params", Json.null)])) =
      notifDispatch (Json.obj
        [("id", Json.num 0), ("method", Json.str "NotifyEvent"), ("params", Json.null)])) :=
  falsy_id_frame_never_reaches_receive
    (Json.obj [("id", Json.num 0), ("method", Json.str "NotifyEvent"), ("params", Json.null)])
    (Json.num 0) rfl (by decide)

end Shellies
